import Mathlib

/-!
Shallow embedding of the race variant of `src/game.js` (the arcade driving
game): the vehicle-physics integrator `updateVehiclePhysics`, the
collision/track checker `checkCollisions`, the camera follower
`updateCarCamera`, and the best-time branch of `gameOver`.  Machine numbers
are modelled as rationals; the trigonometric primitives `Math.sin`,
`Math.cos` and `Math.PI` are kept abstract (every theorem below holds for
any interpretation of them).
-/

namespace BestGame

/-- Rational 3D vector, modelling `THREE.Vector3`. -/
structure Vec3 where
  x : ℚ
  y : ℚ
  z : ℚ
deriving DecidableEq

/-- Abstract interpretation of the trig primitives used by the integrator
and camera: `Math.sin`, `Math.cos`, `Math.PI`. -/
structure MathEnv where
  sin : ℚ → ℚ
  cos : ℚ → ℚ
  pi : ℚ

/-- The mutable `vehicleState` object of `src/game.js` (race variant,
lines 531-566): dynamic kinematic/drift fields, tuning constants, and the
five control flags. -/
structure VehicleState where
  rotation : ℚ
  velocity : ℚ
  steerAngle : ℚ
  driftAngle : ℚ
  driftVelocity : ℚ
  isDrifting : Bool
  driftFactor : ℚ
  maxSpeed : ℚ
  acceleration : ℚ
  deceleration : ℚ
  brakeForce : ℚ
  steerSpeed : ℚ
  maxSteerAngle : ℚ
  friction : ℚ
  driftFriction : ℚ
  driftMultiplier : ℚ
  cameraDistance : ℚ
  cameraHeight : ℚ
  cameraLookAhead : ℚ
  cameraSmooth : ℚ
  accelerating : Bool
  braking : Bool
  steeringLeft : Bool
  steeringRight : Bool
  handbrake : Bool
deriving DecidableEq

/-- Initial `vehicleState` of the race variant (source lines 531-566). -/
def initVehicleState : VehicleState where
  rotation := 0
  velocity := 0
  steerAngle := 0
  driftAngle := 0
  driftVelocity := 0
  isDrifting := false
  driftFactor := 0
  maxSpeed := 25
  acceleration := 15
  deceleration := 12
  brakeForce := 18
  steerSpeed := 8/10
  maxSteerAngle := 15/100
  friction := 5
  driftFriction := 95/100
  driftMultiplier := 25/10
  cameraDistance := 8
  cameraHeight := 4
  cameraLookAhead := 2
  cameraSmooth := 8
  accelerating := false
  braking := false
  steeringLeft := false
  steeringRight := false
  handbrake := false

/-- The car pose written by the integrator: `car.position` and
`car.rotation` (Euler x, y, z). -/
structure CarPose where
  position : Vec3
  rotX : ℚ
  rotY : ℚ
  rotZ : ℚ
deriving DecidableEq

/-- The five control-input flags (a view of the flag fields of
`vehicleState`). -/
structure Controls where
  accelerating : Bool
  braking : Bool
  steeringLeft : Bool
  steeringRight : Bool
  handbrake : Bool
deriving DecidableEq

/-- Write the control flags into the vehicle state, as the input adapter
does between frames. -/
def setControls (s : VehicleState) (c : Controls) : VehicleState :=
  { s with
    accelerating := c.accelerating
    braking := c.braking
    steeringLeft := c.steeringLeft
    steeringRight := c.steeringRight
    handbrake := c.handbrake }

/-- Linear interpolation `THREE.MathUtils.lerp(x, y, t) = (1-t)*x + t*y`. -/
def lerpQ (x y t : ℚ) : ℚ :=
  (1 - t) * x + t * y

/-- Clamp `THREE.MathUtils.clamp(value, lo, hi) = max(lo, min(hi, value))`. -/
def clampQ (value lo hi : ℚ) : ℚ :=
  max lo (min hi value)

/-- Target steer angle of `updateVehiclePhysics` (source lines 1729-1731):
`(steeringLeft ? maxSteerAngle : 0) + (steeringRight ? -maxSteerAngle : 0)`. -/
def targetSteerAngle (steeringLeft steeringRight : Bool) (maxSteerAngle : ℚ) : ℚ :=
  (if steeringLeft then maxSteerAngle else 0) +
  (if steeringRight then -maxSteerAngle else 0)

/-- Tail of `updateVehiclePhysics` (source lines 1781-1822): speed clamp,
steering-induced rotation, forward motion, height reset and visual tilt.
Arguments carry the values computed by the head of the function. -/
def finishStep (env : MathEnv) (now delta : ℚ) (s : VehicleState)
    (steerAngle1 v2 driftFactor1 driftAngle1 driftVelocity1 : ℚ)
    (isDrifting1 : Bool) (px1 pz1 : ℚ) (ground : ℚ) : VehicleState × CarPose :=
  let v3 := clampQ v2 (-(s.maxSpeed * (3/10))) s.maxSpeed
  let rotation1 :=
    if (1/10 : ℚ) < |v3| then
      let steerMultiplier := if isDrifting1 then s.driftMultiplier else 1
      let steerInfluence := steerAngle1 * min (|v3| / 5) 1 * steerMultiplier
      s.rotation + steerInfluence * v3 * delta
    else s.rotation
  let rotY0 := rotation1 - env.pi / 2
  let moveDistance := v3 * delta
  let px2 := px1 + env.sin rotation1 * moveDistance
  let pz2 := pz1 + env.cos rotation1 * moveDistance
  let tiltMultiplier : ℚ := if isDrifting1 then 6/100 else 2/100
  let rotZ1 := -steerAngle1 * v3 * tiltMultiplier
  let rotY1 :=
    if isDrifting1 then rotY0 + env.sin (now * (1/100)) * (2/100) * driftFactor1
    else rotY0
  let rotX1 : ℚ := if isDrifting1 then -(driftFactor1 * (5/100)) else 0
  ({ s with
      steerAngle := steerAngle1
      velocity := v3
      driftFactor := driftFactor1
      driftAngle := driftAngle1
      driftVelocity := driftVelocity1
      isDrifting := isDrifting1
      rotation := rotation1 },
   { position := { x := px2, y := ground, z := pz2 }
     rotX := rotX1, rotY := rotY1, rotZ := rotZ1 })

/-- Longitudinal velocity update of `updateVehiclePhysics` (source lines
1739-1753): accelerate, else brake, else relax toward 0 by friction without
overshooting. -/
def updateVelocity (s : VehicleState) (delta : ℚ) : ℚ :=
  if s.accelerating then s.velocity + s.acceleration * delta
  else if s.braking then s.velocity - s.brakeForce * delta
  else if 0 < s.velocity then
    let v := s.velocity - s.friction * delta
    if v < 0 then 0 else v
  else if s.velocity < 0 then
    let v := s.velocity + s.friction * delta
    if 0 < v then 0 else v
  else s.velocity

/-- Drift branch of `updateVehiclePhysics` (source lines 1756-1769): ramp
the drift factor, bleed speed by the drift friction, accumulate the drift
angle when steering, and displace the car laterally; then run the common
tail.  `v1` is the velocity after the longitudinal update. -/
def driftStep (env : MathEnv) (now delta : ℚ) (s : VehicleState)
    (p : CarPose) (ground steerAngle1 v1 : ℚ) : VehicleState × CarPose :=
  let driftFactor1 := min (s.driftFactor + delta * 3) 1
  let v2 := v1 * s.driftFriction
  let driftAngle1 :=
    if s.steeringLeft || s.steeringRight then
      let driftDirection : ℚ := if s.steeringLeft then 1 else -1
      s.driftAngle + driftDirection * v2 * (5/100) * delta
    else s.driftAngle
  let driftVelocity1 :=
    if s.steeringLeft || s.steeringRight then v2 * (3/10) else s.driftVelocity
  let lateralDrift := env.sin driftAngle1 * driftVelocity1 * delta
  let px1 := p.position.x + env.cos s.rotation * lateralDrift * driftFactor1
  let pz1 := p.position.z - env.sin s.rotation * lateralDrift * driftFactor1
  finishStep env now delta s steerAngle1 v2 driftFactor1 driftAngle1
    driftVelocity1 true px1 pz1 ground

/-- No-drift branch of `updateVehiclePhysics` (source lines 1771-1779):
decay the drift factor, angle and velocity, clear `isDrifting` below 0.1;
then run the common tail. -/
def noDriftStep (env : MathEnv) (now delta : ℚ) (s : VehicleState)
    (p : CarPose) (ground steerAngle1 v1 : ℚ) : VehicleState × CarPose :=
  let driftFactor1 := max (s.driftFactor - delta * 2) 0
  let driftAngle1 := s.driftAngle * (9/10)
  let driftVelocity1 := s.driftVelocity * (9/10)
  let isDrifting1 := if driftFactor1 < 1/10 then false else s.isDrifting
  finishStep env now delta s steerAngle1 v1 driftFactor1 driftAngle1
    driftVelocity1 isDrifting1 p.position.x p.position.z ground

/-- One call of `updateVehiclePhysics(delta)` (source lines 1725-1822), past
its null/playing guard.  `now` models `Date.now()` and `ground` models
`gameState.carGroundLevel`.  Returns the updated `vehicleState` and pose. -/
def stepVehicle (env : MathEnv) (now delta : ℚ) (s : VehicleState)
    (p : CarPose) (ground : ℚ) : VehicleState × CarPose :=
  let target := targetSteerAngle s.steeringLeft s.steeringRight s.maxSteerAngle
  let steerAngle1 := lerpQ s.steerAngle target (s.steerSpeed * delta * 3)
  let v1 := updateVelocity s delta
  if s.handbrake = true ∧ 3 < |v1| then
    driftStep env now delta s p ground steerAngle1 v1
  else
    noDriftStep env now delta s p ground steerAngle1 v1

/-- One animation frame as it affects the integrator: the input adapter's
flag values, the wall clock, and the (pre-clamped) delta. -/
structure Frame where
  controls : Controls
  now : ℚ
  delta : ℚ

/-- Run a sequence of frames: each frame writes the control flags and then
performs one physics step. -/
def runFrames (env : MathEnv) (ground : ℚ) :
    List Frame → VehicleState × CarPose → VehicleState × CarPose
  | [], sp => sp
  | f :: rest, (s, p) =>
      runFrames env ground rest (stepVehicle env f.now f.delta (setControls s f.controls) p ground)

/-- Axis-aligned box, modelling `THREE.Box3`. -/
structure Box3 where
  min : Vec3
  max : Vec3
deriving DecidableEq

/-- Box from center and size: `Box3.setFromCenterAndSize`
(min = center - size/2, max = center + size/2). -/
def boxFromCenterAndSize (center size : Vec3) : Box3 where
  min := { x := center.x - size.x / 2, y := center.y - size.y / 2, z := center.z - size.z / 2 }
  max := { x := center.x + size.x / 2, y := center.y + size.y / 2, z := center.z + size.z / 2 }

/-- The 25% shrink applied to the car box in `checkCollisions` (source lines
1376-1383): recompute the box from its center and 0.75 times its size. -/
def shrinkBox (b : Box3) : Box3 :=
  let center : Vec3 :=
    { x := (b.min.x + b.max.x) / 2, y := (b.min.y + b.max.y) / 2, z := (b.min.z + b.max.z) / 2 }
  let size : Vec3 :=
    { x := (b.max.x - b.min.x) * (75/100), y := (b.max.y - b.min.y) * (75/100)
      z := (b.max.z - b.min.z) * (75/100) }
  boxFromCenterAndSize center size

/-- Box intersection test `THREE.Box3.intersectsBox` (touching counts). -/
def boxIntersects (a b : Box3) : Prop :=
  a.min.x ≤ b.max.x ∧ b.min.x ≤ a.max.x ∧
  a.min.y ≤ b.max.y ∧ b.min.y ≤ a.max.y ∧
  a.min.z ≤ b.max.z ∧ b.min.z ≤ a.max.z

instance (a b : Box3) : Decidable (boxIntersects a b) := by
  unfold boxIntersects; infer_instance

/-- Trunk collision box of an obstacle at world position `o` (source lines
1389-1404): center at (o.x, 1, o.z), size (1.2, 4.0, 1.2). -/
def obstacleBB (o : Vec3) : Box3 :=
  boxFromCenterAndSize { x := o.x, y := 1, z := o.z } { x := 12/10, y := 4, z := 12/10 }

/-- Obstacle loop of `checkCollisions` (source lines 1386-1413): scan the
obstacle list and report whether the shrunk car box hits some trunk box
(the source returns from the function at the first hit). -/
def anyObstacleHit (carBox : Box3) : List Vec3 → Bool
  | [] => false
  | o :: rest =>
      if boxIntersects carBox (obstacleBB o) then true else anyObstacleHit carBox rest

/-- One track segment (source line 1035 and following): a z-range `start` to
`end` (here `end_`) with a lateral window around `xOffset` of width `width`. -/
structure TrackSegment where
  start : ℚ
  end_ : ℚ
  xOffset : ℚ
  width : ℚ
deriving DecidableEq

/-- Segment loop of `checkCollisions` (source lines 1426-1437): the car is
on track when some segment contains its z in [end, start] and its x in
[xOffset - width/2, xOffset + width/2]. -/
def findOnTrack (carX carZ : ℚ) : List TrackSegment → Bool
  | [] => false
  | seg :: rest =>
      if carZ ≤ seg.start ∧ seg.end_ ≤ carZ ∧
          seg.xOffset - seg.width / 2 ≤ carX ∧ carX ≤ seg.xOffset + seg.width / 2 then
        true
      else findOnTrack carX carZ rest

/-- Outcome of one collision/bounds check. -/
inductive Verdict where
  | Ongoing
  | Crashed
  | Finished
  | OutOfBounds
deriving DecidableEq

/-- The verdict computed by `checkCollisions` (source lines 1369-1443), past
its guard: obstacle scan first (crash), then finish-line test, then the
track-membership scan with the pre-start grace `carZ < 0`.  The car box is
the renderer-computed world bounding box of the car. -/
def checkCollisions (carBox : Box3) (carPos : Vec3) (obstacles : List Vec3)
    (segments : List TrackSegment) (finishZ : ℚ) : Verdict :=
  let shrunk := shrinkBox carBox
  if anyObstacleHit shrunk obstacles then Verdict.Crashed
  else if carPos.z < finishZ then Verdict.Finished
  else if findOnTrack carPos.x carPos.z segments = false ∧ carPos.z < 0 then
    Verdict.OutOfBounds
  else Verdict.Ongoing

/-- The race track of the race variant (source lines 1035-1045). -/
def raceTrackSegments : List TrackSegment :=
  [ { start := 0, end_ := -50, xOffset := 0, width := 35 },
    { start := -50, end_ := -80, xOffset := 10, width := 35 },
    { start := -80, end_ := -120, xOffset := 20, width := 35 },
    { start := -120, end_ := -160, xOffset := 20, width := 35 },
    { start := -160, end_ := -190, xOffset := 0, width := 35 },
    { start := -190, end_ := -230, xOffset := -20, width := 35 },
    { start := -230, end_ := -260, xOffset := -20, width := 35 },
    { start := -260, end_ := -280, xOffset := -10, width := 35 },
    { start := -280, end_ := -320, xOffset := 0, width := 35 } ]

/-- `gameState.finishLineZ` of the race variant (source line 525). -/
def finishLineZ : ℚ := -300

/-- Camera as the follower sees it: its position and the point it looks at. -/
structure Camera where
  position : Vec3
  lookTarget : Vec3
deriving DecidableEq

/-- Componentwise `THREE.Vector3.lerp(v, alpha)`: this + (v - this) * alpha. -/
def lerpV (a b : Vec3) (t : ℚ) : Vec3 :=
  { x := a.x + (b.x - a.x) * t, y := a.y + (b.y - a.y) * t, z := a.z + (b.z - a.z) * t }

/-- Vector addition. -/
def addV (a b : Vec3) : Vec3 :=
  { x := a.x + b.x, y := a.y + b.y, z := a.z + b.z }

/-- Scalar multiplication of a vector. -/
def scaleV (a : Vec3) (k : ℚ) : Vec3 :=
  { x := a.x * k, y := a.y * k, z := a.z * k }

/-- Ideal camera position of `updateCarCamera` (source lines 1692-1701):
the offset behind the vehicle, scaled up with speed, added to the car
position. -/
def idealCamPosition (env : MathEnv) (s : VehicleState) (carPos : Vec3) : Vec3 :=
  let idealOffset : Vec3 :=
    { x := -(env.sin s.rotation) * s.cameraDistance
      y := s.cameraHeight
      z := -(env.cos s.rotation) * s.cameraDistance }
  let speedOffset := s.velocity * (1/10)
  addV carPos (scaleV idealOffset (1 + |speedOffset| * (5/100)))

/-- Ideal look-at point of `updateCarCamera` (source lines 1703-1708):
ahead of the car by a speed-scaled look-ahead distance, one unit up. -/
def idealCamLookAt (env : MathEnv) (s : VehicleState) (carPos : Vec3) : Vec3 :=
  let lookAheadDistance := s.cameraLookAhead + |s.velocity| * (2/10)
  { x := carPos.x + env.sin s.rotation * lookAheadDistance
    y := carPos.y + 1
    z := carPos.z + env.cos s.rotation * lookAheadDistance }

/-- One call of `updateCarCamera(delta)` (source lines 1689-1722), past its
null guard.  `worldDir` is the camera's current world direction (read via
`getWorldDirection` in the source); the camera state records position and
look-at target. -/
def updateCarCamera (env : MathEnv) (s : VehicleState) (carPos : Vec3)
    (cam : Camera) (worldDir : Vec3) (delta : ℚ) : Camera :=
  let idealPosition := idealCamPosition env s carPos
  let idealLookAt := idealCamLookAt env s carPos
  if 0 < delta then
    let newPos := lerpV cam.position idealPosition (s.cameraSmooth * delta)
    let currentLookAt := addV (scaleV worldDir 10) newPos
    { position := newPos, lookTarget := lerpV currentLookAt idealLookAt (s.cameraSmooth * delta) }
  else
    { position := idealPosition, lookTarget := idealLookAt }

/-- Two-decimal formatting `Number.toFixed(2)` modelled over ℚ as rounding
to hundredths (the JS tie behaviour depends on the binary float value; no
claim below depends on it). -/
def toFixed2 (q : ℚ) : ℚ :=
  (round (q * 100) : ℤ) / 100

/-- Best-time branch of `gameOver(true)` (source lines 1616-1651): read the
stored best (`none` models an absent key), update storage and surface the
new-record notification when there is no stored best or the elapsed race
time beats it.  Returns the new storage content and whether the new-record
notification was shown. -/
def gameOverWonBest (raceTime : ℚ) (stored : Option ℚ) : Option ℚ × Bool :=
  match stored with
  | none => (some (toFixed2 raceTime), true)
  | some b => if raceTime < b then (some (toFixed2 raceTime), true) else (some b, false)

/-- Concrete interpretation of the trig oracle, used to evaluate theorems
with hypotheses at concrete inputs. -/
def testEnv : MathEnv where
  sin := fun _ => 0
  cos := fun _ => 1
  pi := 355/113

/-- A concrete car pose for concrete evaluations. -/
def carPose0 : CarPose where
  position := { x := 0, y := 0, z := 0 }
  rotX := 0
  rotY := 0
  rotZ := 0

/-- The obstacle scan hits some obstacle exactly when the car box intersects
some trunk box in the list. -/
theorem anyObstacleHit_iff (b : Box3) (l : List Vec3) :
    anyObstacleHit b l = true ↔ ∃ o ∈ l, boxIntersects b (obstacleBB o) := by
  induction l with
  | nil => simp [anyObstacleHit]
  | cons o rest ih =>
      by_cases h : boxIntersects b (obstacleBB o)
      · simp [anyObstacleHit, h]
      · simp [anyObstacleHit, h, ih]

/-- The segment scan succeeds exactly when some segment contains the car. -/
theorem findOnTrack_iff (carX carZ : ℚ) (l : List TrackSegment) :
    findOnTrack carX carZ l = true ↔
      ∃ seg ∈ l, carZ ≤ seg.start ∧ seg.end_ ≤ carZ ∧
        seg.xOffset - seg.width / 2 ≤ carX ∧ carX ≤ seg.xOffset + seg.width / 2 := by
  induction l with
  | nil => simp [findOnTrack]
  | cons seg rest ih =>
      by_cases h : carZ ≤ seg.start ∧ seg.end_ ≤ carZ ∧
          seg.xOffset - seg.width / 2 ≤ carX ∧ carX ≤ seg.xOffset + seg.width / 2
      · rw [findOnTrack, if_pos h]
        exact iff_of_true rfl ⟨seg, List.mem_cons_self seg rest, h⟩
      · rw [findOnTrack, if_neg h, ih]
        constructor
        · rintro ⟨a, ha, hc⟩
          exact ⟨a, List.mem_cons_of_mem seg ha, hc⟩
        · rintro ⟨a, ha, hc⟩
          rcases List.mem_cons.mp ha with rfl | ha2
          · exact absurd hc h
          · exact ⟨a, ha2, hc⟩

/-- Claim C3 (counterexample): with both steering flags pressed and the
race variant's maxSteerAngle, the target steer angle is 0, not
maxSteerAngle as the claim states. -/
theorem c3_both_pressed_counterexample :
    targetSteerAngle true true initVehicleState.maxSteerAngle = 0 ∧
    targetSteerAngle true true initVehicleState.maxSteerAngle ≠ initVehicleState.maxSteerAngle := by
  norm_num [targetSteerAngle, initVehicleState]

/-- Claim C3 (amended): the target steer angle is maxSteerAngle when only
steeringLeft is set, -maxSteerAngle when only steeringRight is set, and 0
when neither or both are set (the two contributions cancel; left does not
take precedence). -/
theorem c3_target_steer_cases (steeringLeft steeringRight : Bool) (m : ℚ) :
    targetSteerAngle steeringLeft steeringRight m =
      match steeringLeft, steeringRight with
      | true, true => 0
      | true, false => m
      | false, true => -m
      | false, false => 0 := by
  cases steeringLeft <;> cases steeringRight <;> simp [targetSteerAngle]

/-- Claim C10: every physics step ends with the car's vertical position
equal to the ground level, for every input, dt, trig interpretation, and
starting state/pose. -/
theorem c10_car_height (env : MathEnv) (now delta : ℚ) (s : VehicleState)
    (p : CarPose) (ground : ℚ) :
    (stepVehicle env now delta s p ground).2.position.y = ground := by
  simp only [stepVehicle]
  split <;> rfl

/-- Claim C4: on winning with elapsed time t, if no best time is stored or
t beats the stored best, storage is updated to t rounded to two decimals
and the new-record notification is shown; if t is equal to or above the
stored best, storage is unchanged and no notification is shown. -/
theorem c4_best_time (t : ℚ) (stored : Option ℚ) :
    ((stored = none ∨ ∃ b, stored = some b ∧ t < b) →
      gameOverWonBest t stored = (some (toFixed2 t), true)) ∧
    (∀ b, stored = some b → b ≤ t → gameOverWonBest t stored = (some b, false)) := by
  constructor
  · rintro (hnone | ⟨b, hb, hlt⟩)
    · subst hnone; rfl
    · subst hb; simp [gameOverWonBest, hlt]
  · rintro b rfl hle
    simp [gameOverWonBest, not_lt.mpr hle]

/-- Claim C4 witness: a first win stores the time and reports a record; a
slower time than the stored best does neither. -/
theorem c4_best_time_witness :
    gameOverWonBest 5 none = (some (toFixed2 5), true) ∧
    gameOverWonBest 5 (some 4) = (some 4, false) :=
  ⟨(c4_best_time 5 none).1 (Or.inl rfl),
   (c4_best_time 5 (some 4)).2 4 rfl (by norm_num)⟩

/-- Claim C8: with dt = 0 the camera follower snaps position and look-at
exactly to the ideal values, with no interpolation; with dt > 0 both move
only by the fraction cameraSmooth * dt toward the ideal values. -/
theorem c8_camera_snap (env : MathEnv) (s : VehicleState) (carPos : Vec3)
    (cam : Camera) (worldDir : Vec3) (delta : ℚ) :
    (delta = 0 →
      updateCarCamera env s carPos cam worldDir delta =
        { position := idealCamPosition env s carPos
          lookTarget := idealCamLookAt env s carPos }) ∧
    (0 < delta →
      updateCarCamera env s carPos cam worldDir delta =
        { position := lerpV cam.position (idealCamPosition env s carPos) (s.cameraSmooth * delta)
          lookTarget :=
            lerpV
              (addV (scaleV worldDir 10)
                (lerpV cam.position (idealCamPosition env s carPos) (s.cameraSmooth * delta)))
              (idealCamLookAt env s carPos) (s.cameraSmooth * delta) }) := by
  constructor
  · intro h
    subst h
    simp [updateCarCamera]
  · intro h
    simp [updateCarCamera, if_pos h]

/-- Claim C8 witness: the follower applied at a concrete state with dt = 0
snaps to the ideal pose, and with dt = 1/60 it lerps toward it. -/
theorem c8_camera_snap_witness :
    updateCarCamera testEnv initVehicleState { x := 0, y := 0, z := 0 }
        { position := { x := 1, y := 2, z := 3 }, lookTarget := { x := 4, y := 5, z := 6 } }
        { x := 0, y := 0, z := 1 } 0 =
      { position := idealCamPosition testEnv initVehicleState { x := 0, y := 0, z := 0 }
        lookTarget := idealCamLookAt testEnv initVehicleState { x := 0, y := 0, z := 0 } } ∧
    updateCarCamera testEnv initVehicleState { x := 0, y := 0, z := 0 }
        { position := { x := 1, y := 2, z := 3 }, lookTarget := { x := 4, y := 5, z := 6 } }
        { x := 0, y := 0, z := 1 } (1/60) =
      { position :=
          lerpV { x := 1, y := 2, z := 3 }
            (idealCamPosition testEnv initVehicleState { x := 0, y := 0, z := 0 })
            (initVehicleState.cameraSmooth * (1/60))
        lookTarget :=
          lerpV
            (addV (scaleV { x := 0, y := 0, z := 1 } 10)
              (lerpV { x := 1, y := 2, z := 3 }
                (idealCamPosition testEnv initVehicleState { x := 0, y := 0, z := 0 })
                (initVehicleState.cameraSmooth * (1/60))))
            (idealCamLookAt testEnv initVehicleState { x := 0, y := 0, z := 0 })
            (initVehicleState.cameraSmooth * (1/60)) } :=
  ⟨(c8_camera_snap testEnv initVehicleState { x := 0, y := 0, z := 0 }
      { position := { x := 1, y := 2, z := 3 }, lookTarget := { x := 4, y := 5, z := 6 } }
      { x := 0, y := 0, z := 1 } 0).1 rfl,
   (c8_camera_snap testEnv initVehicleState { x := 0, y := 0, z := 0 }
      { position := { x := 1, y := 2, z := 3 }, lookTarget := { x := 4, y := 5, z := 6 } }
      { x := 0, y := 0, z := 1 } (1/60)).2 (by norm_num)⟩

/-- The obstacle scan misses when no obstacle in the list is hit. -/
theorem anyObstacleHit_eq_false (b : Box3) (l : List Vec3)
    (h : ∀ o ∈ l, ¬ boxIntersects b (obstacleBB o)) :
    anyObstacleHit b l = false := by
  rcases Bool.eq_false_or_eq_true (anyObstacleHit b l) with ht | hf
  · rcases (anyObstacleHit_iff b l).1 ht with ⟨o, ho, hI⟩
    exact absurd hI (h o ho)
  · exact hf

/-- Claim C2: a pose past the finish coordinate that intersects no obstacle
yields Finished, never OutOfBounds, whatever the track segments are. -/
theorem c2_finish_before_bounds (carBox : Box3) (carPos : Vec3)
    (obstacles : List Vec3) (segments : List TrackSegment) (finishZ : ℚ)
    (hobs : ∀ o ∈ obstacles, ¬ boxIntersects (shrinkBox carBox) (obstacleBB o))
    (hfin : carPos.z < finishZ) :
    checkCollisions carBox carPos obstacles segments finishZ = Verdict.Finished := by
  have hhit := anyObstacleHit_eq_false (shrinkBox carBox) obstacles hobs
  simp [checkCollisions, hhit, hfin]

/-- Claim C2 witness: a car at z = -301 with no obstacles, past every
segment of the race track, finishes rather than going out of bounds. -/
theorem c2_finish_before_bounds_witness :
    checkCollisions
        { min := { x := -1, y := 0, z := -302 }, max := { x := 1, y := 2, z := -300 } }
        { x := 0, y := 0, z := -301 } [] raceTrackSegments finishLineZ = Verdict.Finished :=
  c2_finish_before_bounds
    { min := { x := -1, y := 0, z := -302 }, max := { x := 1, y := 2, z := -300 } }
    { x := 0, y := 0, z := -301 } [] raceTrackSegments finishLineZ
    (by intro o ho; exact absurd ho (List.not_mem_nil o))
    (by norm_num [finishLineZ])

/-- Claim C9: if the shrunk car box intersects some obstacle's trunk box,
the verdict is Crashed even when the car is also past the finish line, the
obstacle scan running before the finish-line test. -/
theorem c9_crash_wins_over_finish (carBox : Box3) (carPos : Vec3)
    (obstacles : List Vec3) (segments : List TrackSegment) (finishZ : ℚ)
    (hobs : ∃ o ∈ obstacles, boxIntersects (shrinkBox carBox) (obstacleBB o))
    (_hfin : carPos.z < finishZ) :
    checkCollisions carBox carPos obstacles segments finishZ = Verdict.Crashed := by
  have hhit : anyObstacleHit (shrinkBox carBox) obstacles = true :=
    (anyObstacleHit_iff (shrinkBox carBox) obstacles).2 hobs
  simp [checkCollisions, hhit]

/-- Claim C9 witness: a car box overlapping a trunk at z = -301, past the
finish line at -300, crashes instead of finishing. -/
theorem c9_crash_wins_over_finish_witness :
    checkCollisions
        { min := { x := -1, y := 0, z := -302 }, max := { x := 1, y := 2, z := -300 } }
        { x := 0, y := 0, z := -301 } [{ x := 0, y := 0, z := -301 }] raceTrackSegments
        finishLineZ = Verdict.Crashed :=
  c9_crash_wins_over_finish
    { min := { x := -1, y := 0, z := -302 }, max := { x := 1, y := 2, z := -300 } }
    { x := 0, y := 0, z := -301 } [{ x := 0, y := 0, z := -301 }] raceTrackSegments finishLineZ
    ⟨{ x := 0, y := 0, z := -301 }, List.mem_singleton_self _,
      by norm_num [boxIntersects, shrinkBox, obstacleBB, boxFromCenterAndSize]⟩
    (by norm_num [finishLineZ])

/-- Claim C7: the verdict does not depend on the order of the obstacle
list. -/
theorem c7_obstacle_order_irrelevant (carBox : Box3) (carPos : Vec3)
    (obstacles1 obstacles2 : List Vec3) (segments : List TrackSegment) (finishZ : ℚ)
    (hperm : obstacles1.Perm obstacles2) :
    checkCollisions carBox carPos obstacles1 segments finishZ =
      checkCollisions carBox carPos obstacles2 segments finishZ := by
  have h : anyObstacleHit (shrinkBox carBox) obstacles1 =
      anyObstacleHit (shrinkBox carBox) obstacles2 := by
    rw [Bool.eq_iff_iff, anyObstacleHit_iff, anyObstacleHit_iff]
    constructor
    · rintro ⟨o, ho, hI⟩
      exact ⟨o, hperm.mem_iff.mp ho, hI⟩
    · rintro ⟨o, ho, hI⟩
      exact ⟨o, hperm.mem_iff.mpr ho, hI⟩
  simp only [checkCollisions, h]

/-- Claim C7 witness: swapping two obstacles leaves the verdict unchanged. -/
theorem c7_obstacle_order_irrelevant_witness :
    checkCollisions
        { min := { x := -1, y := 0, z := -2 }, max := { x := 1, y := 2, z := 0 } }
        { x := 0, y := 0, z := -1 }
        [{ x := 0, y := 0, z := -1 }, { x := 9, y := 0, z := -40 }] raceTrackSegments
        finishLineZ =
      checkCollisions
        { min := { x := -1, y := 0, z := -2 }, max := { x := 1, y := 2, z := 0 } }
        { x := 0, y := 0, z := -1 }
        [{ x := 9, y := 0, z := -40 }, { x := 0, y := 0, z := -1 }] raceTrackSegments
        finishLineZ :=
  c7_obstacle_order_irrelevant
    { min := { x := -1, y := 0, z := -2 }, max := { x := 1, y := 2, z := 0 } }
    { x := 0, y := 0, z := -1 }
    [{ x := 0, y := 0, z := -1 }, { x := 9, y := 0, z := -40 }]
    [{ x := 9, y := 0, z := -40 }, { x := 0, y := 0, z := -1 }] raceTrackSegments finishLineZ
    (List.Perm.swap (Vec3.mk 9 0 (-40)) (Vec3.mk 0 0 (-1)) [])

/-- Claim C5: with no obstacle hit and the finish not yet reached, the
verdict is OutOfBounds exactly when no segment contains the car and the car
has already crossed the start line (z < 0); with z at or after the start
line the verdict is Ongoing. -/
theorem c5_out_of_bounds_iff (carBox : Box3) (carPos : Vec3)
    (obstacles : List Vec3) (segments : List TrackSegment) (finishZ : ℚ)
    (hobs : ∀ o ∈ obstacles, ¬ boxIntersects (shrinkBox carBox) (obstacleBB o))
    (hfin : ¬ carPos.z < finishZ) :
    (checkCollisions carBox carPos obstacles segments finishZ = Verdict.OutOfBounds ↔
      ((¬ ∃ seg ∈ segments, carPos.z ≤ seg.start ∧ seg.end_ ≤ carPos.z ∧
          seg.xOffset - seg.width / 2 ≤ carPos.x ∧ carPos.x ≤ seg.xOffset + seg.width / 2) ∧
        carPos.z < 0)) ∧
    (0 ≤ carPos.z →
      checkCollisions carBox carPos obstacles segments finishZ = Verdict.Ongoing) := by
  have hhit := anyObstacleHit_eq_false (shrinkBox carBox) obstacles hobs
  have hck : checkCollisions carBox carPos obstacles segments finishZ =
      if findOnTrack carPos.x carPos.z segments = false ∧ carPos.z < 0 then
        Verdict.OutOfBounds
      else Verdict.Ongoing := by
    simp [checkCollisions, hhit, hfin]
  rw [hck]
  constructor
  · by_cases h : findOnTrack carPos.x carPos.z segments = false ∧ carPos.z < 0
    · rw [if_pos h]
      refine iff_of_true rfl ⟨?_, h.2⟩
      intro hex
      have := (findOnTrack_iff carPos.x carPos.z segments).2 hex
      rw [h.1] at this
      exact Bool.false_ne_true this
    · rw [if_neg h]
      constructor
      · intro hcon
        exact Verdict.noConfusion hcon
      · rintro ⟨hnoseg, hz⟩
        exfalso
        apply h
        refine ⟨?_, hz⟩
        rcases Bool.eq_false_or_eq_true (findOnTrack carPos.x carPos.z segments) with ht | hf
        · exact absurd ((findOnTrack_iff carPos.x carPos.z segments).1 ht) hnoseg
        · exact hf
  · intro hz
    rw [if_neg]
    rintro ⟨-, hneg⟩
    exact absurd hneg (not_lt.mpr hz)

/-- Claim C5 witness: with no obstacles on the race track, a car at
x = 30 (outside every lateral window) is OutOfBounds at z = -10 but still
Ongoing at z = 10, before the start line. -/
theorem c5_out_of_bounds_iff_witness :
    checkCollisions
        { min := { x := 29, y := 0, z := -11 }, max := { x := 31, y := 2, z := -9 } }
        { x := 30, y := 0, z := -10 } [] raceTrackSegments finishLineZ =
      Verdict.OutOfBounds ∧
    checkCollisions
        { min := { x := 29, y := 0, z := 9 }, max := { x := 31, y := 2, z := 11 } }
        { x := 30, y := 0, z := 10 } [] raceTrackSegments finishLineZ = Verdict.Ongoing :=
  ⟨(c5_out_of_bounds_iff
      { min := { x := 29, y := 0, z := -11 }, max := { x := 31, y := 2, z := -9 } }
      { x := 30, y := 0, z := -10 } [] raceTrackSegments finishLineZ
      (by intro o ho; exact absurd ho (List.not_mem_nil o))
      (by norm_num [finishLineZ])).1.mpr
    ⟨by norm_num [raceTrackSegments], by norm_num⟩,
   (c5_out_of_bounds_iff
      { min := { x := 29, y := 0, z := 9 }, max := { x := 31, y := 2, z := 11 } }
      { x := 30, y := 0, z := 10 } [] raceTrackSegments finishLineZ
      (by intro o ho; exact absurd ho (List.not_mem_nil o))
      (by norm_num [finishLineZ])).2 (by norm_num)⟩

/-- One step leaves the tuning constants and control flags unchanged. -/
theorem stepVehicle_preserve (env : MathEnv) (now delta : ℚ) (s : VehicleState)
    (p : CarPose) (ground : ℚ) :
    (stepVehicle env now delta s p ground).1.maxSpeed = s.maxSpeed ∧
    (stepVehicle env now delta s p ground).1.acceleration = s.acceleration ∧
    (stepVehicle env now delta s p ground).1.accelerating = s.accelerating ∧
    (stepVehicle env now delta s p ground).1.handbrake = s.handbrake := by
  simp only [stepVehicle]
  split <;> exact ⟨rfl, rfl, rfl, rfl⟩

/-- Under accelerating with the handbrake released, the velocity after one
step is the clamped accelerated velocity. -/
theorem stepVehicle_velocity_accel (env : MathEnv) (now delta : ℚ)
    (s : VehicleState) (p : CarPose) (ground : ℚ)
    (hacc : s.accelerating = true) (hhb : s.handbrake = false) :
    (stepVehicle env now delta s p ground).1.velocity =
      clampQ (s.velocity + s.acceleration * delta) (-(s.maxSpeed * (3/10))) s.maxSpeed := by
  have hv1 : updateVelocity s delta = s.velocity + s.acceleration * delta := by
    simp [updateVelocity, hacc]
  simp only [stepVehicle, hv1]
  rw [if_neg (by simp [hhb])]
  simp only [noDriftStep, finishStep]

/-- Under accelerating with the handbrake held and enough speed to drift,
the velocity after one step is the accelerated velocity scaled by the
drift friction, then clamped. -/
theorem stepVehicle_velocity_drift (env : MathEnv) (now delta : ℚ)
    (s : VehicleState) (p : CarPose) (ground : ℚ)
    (hacc : s.accelerating = true) (hhb : s.handbrake = true)
    (habs : 3 < |s.velocity + s.acceleration * delta|) :
    (stepVehicle env now delta s p ground).1.velocity =
      clampQ ((s.velocity + s.acceleration * delta) * s.driftFriction)
        (-(s.maxSpeed * (3/10))) s.maxSpeed := by
  have hv1 : updateVelocity s delta = s.velocity + s.acceleration * delta := by
    simp [updateVelocity, hacc]
  simp only [stepVehicle, hv1]
  rw [if_pos ⟨hhb, habs⟩]
  simp only [driftStep, finishStep]

/-- The state used to refute claim C6 as stated: accelerating with the
handbrake held at speed 10. -/
def driftCtrState : VehicleState :=
  { initVehicleState with velocity := 10, accelerating := true, handbrake := true }

/-- Claim C6 (counterexample): from velocity 10 (below maxSpeed 25) with
accelerating, dt = 1/100 in (0, 0.1], and the handbrake among "the other
control flags" held, one physics step strictly decreases velocity (the
drift friction outweighs the acceleration), refuting strict increase for
every flag setting. -/
theorem c6_counterexample :
    (0:ℚ) < 1/100 ∧ (1/100 : ℚ) ≤ 1/10 ∧
    driftCtrState.velocity < driftCtrState.maxSpeed ∧
    driftCtrState.accelerating = true ∧
    (stepVehicle testEnv 0 (1/100) driftCtrState carPose0 0).1.velocity <
      driftCtrState.velocity := by
  refine ⟨by norm_num, by norm_num, by norm_num [driftCtrState, initVehicleState], rfl, ?_⟩
  have habs : (3:ℚ) < |driftCtrState.velocity + driftCtrState.acceleration * (1/100)| := by
    have h : driftCtrState.velocity + driftCtrState.acceleration * (1/100) = 203/20 := by
      norm_num [driftCtrState, initVehicleState]
    rw [h, abs_of_pos (by norm_num)]
    norm_num
  rw [stepVehicle_velocity_drift testEnv 0 (1/100) driftCtrState carPose0 0 rfl rfl habs]
  have h : (driftCtrState.velocity + driftCtrState.acceleration * (1/100)) *
      driftCtrState.driftFriction = 3857/400 := by
    norm_num [driftCtrState, initVehicleState]
  rw [h]
  norm_num [driftCtrState, initVehicleState, clampQ, min_def, max_def]

/-- Claim C6 (amended): with accelerating held, the handbrake released, and
any setting of the remaining flags, each of two consecutive physics steps
with the same dt in (0, 0.1] strictly increases velocity while it is below
maxSpeed, and once the first step reaches maxSpeed the second stays clamped
there. -/
theorem c6_accel_increases (env : MathEnv) (now1 now2 delta : ℚ)
    (s : VehicleState) (p : CarPose) (ground : ℚ)
    (hacc : s.accelerating = true) (hhb : s.handbrake = false)
    (ha : 0 < s.acceleration) (hd : 0 < delta) (_hd1 : delta ≤ 1/10)
    (hv : s.velocity < s.maxSpeed) :
    s.velocity < (stepVehicle env now1 delta s p ground).1.velocity ∧
    ((stepVehicle env now1 delta s p ground).1.velocity < s.maxSpeed →
      (stepVehicle env now1 delta s p ground).1.velocity <
        (stepVehicle env now2 delta (stepVehicle env now1 delta s p ground).1
          (stepVehicle env now1 delta s p ground).2 ground).1.velocity) ∧
    ((stepVehicle env now1 delta s p ground).1.velocity = s.maxSpeed →
      (stepVehicle env now2 delta (stepVehicle env now1 delta s p ground).1
        (stepVehicle env now1 delta s p ground).2 ground).1.velocity = s.maxSpeed) := by
  have h1 := stepVehicle_velocity_accel env now1 delta s p ground hacc hhb
  have hpres := stepVehicle_preserve env now1 delta s p ground
  have hacc2 : (stepVehicle env now1 delta s p ground).1.accelerating = true :=
    hpres.2.2.1.trans hacc
  have hhb2 : (stepVehicle env now1 delta s p ground).1.handbrake = false :=
    hpres.2.2.2.trans hhb
  have h2 := stepVehicle_velocity_accel env now2 delta
    (stepVehicle env now1 delta s p ground).1 (stepVehicle env now1 delta s p ground).2
    ground hacc2 hhb2
  rw [hpres.2.1, hpres.1] at h2
  have hstep : ∀ v : ℚ, v < v + s.acceleration * delta := by
    intro v
    have := mul_pos ha hd
    linarith
  refine ⟨?_, ?_, ?_⟩
  · rw [h1]
    unfold clampQ
    exact lt_of_lt_of_le (lt_min hv (hstep s.velocity)) (le_max_right _ _)
  · intro hlt
    rw [h2]
    unfold clampQ
    exact lt_of_lt_of_le
      (lt_min hlt (hstep (stepVehicle env now1 delta s p ground).1.velocity))
      (le_max_right _ _)
  · intro hEq
    have hlo : -(s.maxSpeed * (3/10)) ≤ s.maxSpeed := by
      have hle : -(s.maxSpeed * (3/10)) ≤ (stepVehicle env now1 delta s p ground).1.velocity := by
        rw [h1]
        exact le_max_left _ _
      rw [hEq] at hle
      exact hle
    rw [h2, hEq]
    unfold clampQ
    rw [min_eq_left (by have := mul_pos ha hd; linarith)]
    exact max_eq_right hlo

/-- The state used in the witness for the amended claim C6: the race
variant initial state with accelerating pressed. -/
def accelState : VehicleState :=
  { initVehicleState with accelerating := true }

/-- Claim C6 witness: from the initial race state with accelerating held
and dt = 1/10, one step strictly increases velocity. -/
theorem c6_accel_increases_witness :
    accelState.velocity < (stepVehicle testEnv 0 (1/10) accelState carPose0 0).1.velocity :=
  (c6_accel_increases testEnv 0 1 (1/10) accelState carPose0 0 rfl rfl
    (by norm_num [accelState, initVehicleState]) (by norm_num) (by norm_num)
    (by norm_num [accelState, initVehicleState])).1

/-- One step keeps the drift factor inside [0, 1] when dt is nonnegative. -/
theorem stepVehicle_driftFactor_mem (env : MathEnv) (now delta : ℚ)
    (s : VehicleState) (p : CarPose) (ground : ℚ)
    (h0 : 0 ≤ s.driftFactor) (h1 : s.driftFactor ≤ 1) (hd : 0 ≤ delta) :
    0 ≤ (stepVehicle env now delta s p ground).1.driftFactor ∧
    (stepVehicle env now delta s p ground).1.driftFactor ≤ 1 := by
  simp only [stepVehicle]
  split
  · simp only [driftStep, finishStep]
    exact ⟨le_min (by linarith) zero_le_one, min_le_right _ _⟩
  · simp only [noDriftStep, finishStep]
    exact ⟨le_max_right _ _, max_le (by linarith) zero_le_one⟩

/-- One step leaves the velocity inside the clamp interval whenever the
maximum speed is nonnegative. -/
theorem stepVehicle_velocity_mem (env : MathEnv) (now delta : ℚ)
    (s : VehicleState) (p : CarPose) (ground : ℚ) (hm : 0 ≤ s.maxSpeed) :
    -(s.maxSpeed * (3/10)) ≤ (stepVehicle env now delta s p ground).1.velocity ∧
    (stepVehicle env now delta s p ground).1.velocity ≤ s.maxSpeed := by
  simp only [stepVehicle]
  split <;>
    simp only [driftStep, noDriftStep, finishStep, clampQ] <;>
    exact ⟨le_max_left _ _, max_le (by linarith) (min_le_left _ _)⟩

/-- Writing control flags changes no numeric field. -/
theorem setControls_fields (s : VehicleState) (c : Controls) :
    (setControls s c).velocity = s.velocity ∧
    (setControls s c).driftFactor = s.driftFactor ∧
    (setControls s c).maxSpeed = s.maxSpeed :=
  ⟨rfl, rfl, rfl⟩

/-- Claim C1: from any state with velocity in [-maxSpeed·0.3, maxSpeed] and
drift factor in [0, 1], any sequence of frames whose dt values lie in
[0, 0.1] — each with an arbitrary setting of the five control flags —
leaves velocity and drift factor inside the same bounds; in particular a
single step does. -/
theorem c1_bounds (env : MathEnv) (ground : ℚ) (L : List Frame)
    (s : VehicleState) (p : CarPose)
    (hv1 : -(s.maxSpeed * (3/10)) ≤ s.velocity) (hv2 : s.velocity ≤ s.maxSpeed)
    (hdf0 : 0 ≤ s.driftFactor) (hdf1 : s.driftFactor ≤ 1)
    (hL : ∀ f ∈ L, 0 ≤ f.delta ∧ f.delta ≤ 1/10) :
    -(s.maxSpeed * (3/10)) ≤ (runFrames env ground L (s, p)).1.velocity ∧
    (runFrames env ground L (s, p)).1.velocity ≤ s.maxSpeed ∧
    0 ≤ (runFrames env ground L (s, p)).1.driftFactor ∧
    (runFrames env ground L (s, p)).1.driftFactor ≤ 1 := by
  induction L generalizing s p with
  | nil => exact ⟨hv1, hv2, hdf0, hdf1⟩
  | cons f rest ih =>
      obtain ⟨hd0, _hd1⟩ := hL f (List.mem_cons_self f rest)
      have hm : 0 ≤ s.maxSpeed := by linarith
      have hrest : ∀ f2 ∈ rest, 0 ≤ f2.delta ∧ f2.delta ≤ 1/10 :=
        fun f2 hf2 => hL f2 (List.mem_cons_of_mem f hf2)
      have hmc : 0 ≤ (setControls s f.controls).maxSpeed := hm
      have hvmem := stepVehicle_velocity_mem env f.now f.delta
        (setControls s f.controls) p ground hmc
      have hdfmem := stepVehicle_driftFactor_mem env f.now f.delta
        (setControls s f.controls) p ground hdf0 hdf1 hd0
      have hpres := stepVehicle_preserve env f.now f.delta
        (setControls s f.controls) p ground
      have hrun : runFrames env ground (f :: rest) (s, p) =
          runFrames env ground rest
            ((stepVehicle env f.now f.delta (setControls s f.controls) p ground).1,
             (stepVehicle env f.now f.delta (setControls s f.controls) p ground).2) := rfl
      have hmax : (stepVehicle env f.now f.delta (setControls s f.controls) p ground).1.maxSpeed
          = s.maxSpeed := hpres.1
      have ihr := ih
        (stepVehicle env f.now f.delta (setControls s f.controls) p ground).1
        (stepVehicle env f.now f.delta (setControls s f.controls) p ground).2
        (by rw [hmax]; exact hvmem.1) (by rw [hmax]; exact hvmem.2)
        hdfmem.1 hdfmem.2 hrest
      rw [hmax] at ihr
      rw [hrun]
      exact ihr

/-- Claim C1 witness: from the race variant initial state, a two-frame run
with handbrake and steering flags set and dt values 1/10 and 1/20 keeps
velocity and drift factor inside their bounds. -/
theorem c1_bounds_witness :
    -(initVehicleState.maxSpeed * (3/10)) ≤
      (runFrames testEnv 0
        [{ controls := { accelerating := true, braking := false, steeringLeft := false,
                         steeringRight := false, handbrake := true }, now := 0, delta := 1/10 },
         { controls := { accelerating := true, braking := false, steeringLeft := true,
                         steeringRight := false, handbrake := true }, now := 100, delta := 1/20 }]
        (initVehicleState, carPose0)).1.velocity ∧
    (runFrames testEnv 0
        [{ controls := { accelerating := true, braking := false, steeringLeft := false,
                         steeringRight := false, handbrake := true }, now := 0, delta := 1/10 },
         { controls := { accelerating := true, braking := false, steeringLeft := true,
                         steeringRight := false, handbrake := true }, now := 100, delta := 1/20 }]
        (initVehicleState, carPose0)).1.velocity ≤ initVehicleState.maxSpeed ∧
    0 ≤ (runFrames testEnv 0
        [{ controls := { accelerating := true, braking := false, steeringLeft := false,
                         steeringRight := false, handbrake := true }, now := 0, delta := 1/10 },
         { controls := { accelerating := true, braking := false, steeringLeft := true,
                         steeringRight := false, handbrake := true }, now := 100, delta := 1/20 }]
        (initVehicleState, carPose0)).1.driftFactor ∧
    (runFrames testEnv 0
        [{ controls := { accelerating := true, braking := false, steeringLeft := false,
                         steeringRight := false, handbrake := true }, now := 0, delta := 1/10 },
         { controls := { accelerating := true, braking := false, steeringLeft := true,
                         steeringRight := false, handbrake := true }, now := 100, delta := 1/20 }]
        (initVehicleState, carPose0)).1.driftFactor ≤ 1 :=
  c1_bounds testEnv 0
    [{ controls := { accelerating := true, braking := false, steeringLeft := false,
                     steeringRight := false, handbrake := true }, now := 0, delta := 1/10 },
     { controls := { accelerating := true, braking := false, steeringLeft := true,
                     steeringRight := false, handbrake := true }, now := 100, delta := 1/20 }]
    initVehicleState carPose0
    (by norm_num [initVehicleState]) (by norm_num [initVehicleState])
    (by norm_num [initVehicleState]) (by norm_num [initVehicleState])
    (by
      intro f hf
      rcases List.mem_cons.mp hf with rfl | hf2
      · exact ⟨by norm_num, by norm_num⟩
      · rcases List.mem_cons.mp hf2 with rfl | hf3
        · exact ⟨by norm_num, by norm_num⟩
        · exact absurd hf3 (List.not_mem_nil f))

end BestGame
